import Mathlib

/-!
Shallow embedding of the orchestration engine of the llm-rag-mcp-orchestrator
backend: the moderation gate, router, reflector, agent dispatcher, sequencer
and finalizer of `backend/orchestrator`, and the MCP service registry of
`backend/mcp`.

External library calls (the `re` regex engine, `json.loads`, pydantic
validation, the builtin `float`, the LLM chat transport, the fastmcp tool
transport) are abstracted as function parameters or oracle streams; everything
the repository's own code does with their results is embedded structurally.
Python machine floats that are only stored, never computed with, are
represented as `Rat`.
-/

/-- Moderation verdict, from `orchestrator/moderator.py` (`class Verdict`). -/
inductive Verdict
  | allow
  | warn
  | block
deriving DecidableEq, BEq

/-- Gate decision, from `orchestrator/moderator.py` (`class Moderation`). -/
structure Moderation where
  verdict : Verdict
  reason : Option String := none
deriving DecidableEq

/-- The `is_blocked` property of `Moderation`. -/
def Moderation.is_blocked (m : Moderation) : Bool :=
  m.verdict == Verdict.block

/-- Python's `str.strip()` builtin, embedded structurally: drops leading and
trailing whitespace characters. -/
def pyStrip (s : String) : String :=
  String.mk (((s.data.dropWhile Char.isWhitespace).reverse.dropWhile Char.isWhitespace).reverse)

/-- Python's `str.lower()` builtin, embedded structurally as per-character
case folding. -/
def pyLower (s : String) : String :=
  String.mk (s.data.map Char.toLower)

/-- The moderation gate, from `orchestrator/moderator.py` (`class Moderator`).
The class-level regex pattern tables `BLOCK_PATTERNS` and `WARN_PATTERNS` pair
a pattern with a reason string; the `re` library's `re.search(pattern, text,
re.I)` call is abstracted as a boolean predicate on the searched text. -/
structure Moderator where
  BLOCK_PATTERNS : List ((String → Bool) × String)
  WARN_PATTERNS : List ((String → Bool) × String)

/-- The `Moderator.moderate` method: blocks empty or whitespace-only input
(`not text or not text.strip()` is equivalent to the stripped text being
empty), otherwise searches the block patterns and then the warn patterns
against the stripped, lower-cased text, returning the first match's reason. -/
def Moderator.moderate (m : Moderator) (text : String) : Moderation :=
  if pyStrip text = "" then
    { verdict := Verdict.block, reason := some "Empty input" }
  else
    let text_lower := pyLower (pyStrip text)
    match m.BLOCK_PATTERNS.find? (fun p => p.1 text_lower) with
    | some p => { verdict := Verdict.block, reason := some p.2 }
    | none =>
      match m.WARN_PATTERNS.find? (fun p => p.1 text_lower) with
      | some p => { verdict := Verdict.warn, reason := some p.2 }
      | none => { verdict := Verdict.allow }

/-- The chat message role, from `llm/protocol.py` (`class Role`). -/
inductive Role
  | SYSTEM
  | USER
  | ASSISTANT
deriving DecidableEq

/-- A chat message, from `llm/protocol.py` (`class Message`). -/
structure Message where
  role : Role
  content : String
deriving DecidableEq

/-- Per-call token usage, from `llm/protocol.py` (`class TokenUsage`). -/
structure TokenUsage where
  model : String
  input_tokens : Int := 0
  output_tokens : Int := 0
deriving DecidableEq

/-- A JSON value as produced by `json.loads` / consumed by pydantic
validation and `json.dumps`; numeric values are represented as `Rat`. -/
inductive JValue
  | obj (fields : List (String × JValue))
  | arr (elems : List JValue)
  | str (s : String)
  | num (q : Rat)
  | bool (b : Bool)
  | null

/-- Association lookup in a JSON object's field list (`dict.get(k)`). -/
def JValue.lookup (fields : List (String × JValue)) (k : String) : Option JValue :=
  (fields.find? (fun p => p.1 == k)).map (fun p => p.2)

/-- Truthiness of a JSON value under Python semantics (`if data.get(...)`). -/
def JValue.pyTruthy : JValue → Bool
  | .obj fields => !fields.isEmpty
  | .arr elems => !elems.isEmpty
  | .str s => s ≠ ""
  | .num q => q ≠ 0
  | .bool b => b
  | .null => false

namespace Orchestrator

/-- Intent name constants used by the graph nodes. Modelled from the spec:
the revision of `orchestrator/router.py` that defines the `Intent` string
constants imported by `orchestrator/nodes.py` is absent from the snapshot;
the spec names the default route intent "chat", the conversational intent
"small talk", and the refusal intent "blocked" (intents are string ids). -/
def Intent.NONE : String := "none"

/-- The default general-chat intent. Modelled from the spec: "fall back
deterministically to a single default general chat route". -/
def Intent.CHAT : String := "chat"

/-- The small-talk intent. Modelled from the spec: "a route whose intent is
small talk and which used no tools is exempt from reflection". -/
def Intent.SMALLTALK : String := "smalltalk"

/-- The refusal intent. Modelled from the spec: "emit a single fixed refusal
result (intent = blocked, success = false)". -/
def Intent.BLOCKED : String := "blocked"

/-- One unit of routed work, from `orchestrator/nodes.py` (`AgentRequest`
imported from the router module). The `params` map holds the values the
router extracted from the query. -/
structure AgentRequest where
  intent : String := Intent.NONE
  params : List (String × JValue) := []

/-- Reflection action. Modelled from the spec: the `Action` enum imported by
`orchestrator/nodes.py` is absent from the snapshot; the spec's `Reflection`
entity carries "action {accept, retry}" (later revisions are retry-only). -/
inductive Action
  | ACCEPT
  | RETRY
deriving DecidableEq

/-- Running review state for the current route. Modelled from the spec: the
`Reflection` dataclass imported by `orchestrator/nodes.py` is absent from the
snapshot; the spec lists its fields as iteration count, action, optional
score, feedback text, `retry_query` and `retry_history`, created fresh (zero
count, no pending retry) whenever the cursor advances to a new route. -/
structure Reflection where
  count : Nat := 0
  action : Action := Action.ACCEPT
  score : Option Rat := none
  feedback : String := ""
  retry_query : Option String := none
  retry_history : Option (List Message) := none

/-- Output of one agent execution, from `orchestrator/nodes.py`
(`class AgentResponse`). -/
structure AgentResponse where
  intent : String := Intent.NONE
  model : String := ""
  answer : String := ""
  success : Bool := true
  tools_used : List String := []

/-- The graph session state, from `orchestrator/nodes.py` (`class State`).
The opaque `model` field (a Chat instance) is omitted: agent and evaluator
calls are supplied as oracle streams. `moderation` and `reflection` are
optional because the corresponding keys may be absent (`state.get`); the
list-valued keys default to the empty list. The `token_log` key carries an
`operator.add` reducer, so node updates append to it. -/
structure State where
  query : String := ""
  history : List Message := []
  use_reflection : Bool := false
  moderation : Option Moderation := none
  agent_requests : List AgentRequest := []
  agent_responses : List AgentResponse := []
  reflection : Option Reflection := none
  token_log : List TokenUsage := []

/-- The `state.get("reflection", Reflection())` access used by the nodes. -/
def State.getReflection (st : State) : Reflection :=
  st.reflection.getD {}

/-- Graph node names, from `build_state_graph` in `orchestrator/nodes.py`;
`terminal` stands for langgraph's `END`. -/
inductive Node
  | moderation
  | router
  | agent
  | reflector
  | check_next
  | finalize
  | terminal
deriving DecidableEq

/-- The `_moderation_node` of `orchestrator/nodes.py`: moderates the query,
stores the result, and jumps to `finalize` when blocked, else to `router`. -/
def _moderation_node (moderator : Moderator) (st : State) : State × Node :=
  let moderation := moderator.moderate st.query
  let goto := if moderation.is_blocked then Node.finalize else Node.router
  ({ st with moderation := some moderation }, goto)

/-- The `_router_node` of `orchestrator/nodes.py`: stores the routes and
tokens returned by `router.route(query, history)` (supplied as the oracle
value `routed`, since the routing LLM call is external) and goes to `agent`. -/
def _router_node (routed : List AgentRequest × TokenUsage) (st : State) : State × Node :=
  ({ st with
      agent_requests := routed.1,
      token_log := st.token_log ++ [routed.2] }, Node.agent)

/-- What `agent.execute(...)` returns to `_agent_node`, duck-typed in the
source (`result.model`, `result.response`, `getattr(result, "success", True)`,
`getattr(result, "tools_used", [])`, token counts). -/
structure AgentResult where
  model : String := ""
  response : String := ""
  success : Bool := true
  tools_used : List String := []
  input_tokens : Int := 0
  output_tokens : Int := 0

/-- The retry test of `_agent_node`: `refl.action == Action.RETRY and
refl.retry_query is not None`. -/
def agentIsRetry (st : State) : Bool :=
  st.getReflection.action == Action.RETRY && st.getReflection.retry_query.isSome

/-- The index `_agent_node` dispatches at: the last response slot on a retry,
the next free slot otherwise. -/
def agentIdx (st : State) : Nat :=
  if agentIsRetry st then st.agent_responses.length - 1 else st.agent_responses.length

/-- The `AgentResponse` entry `_agent_node` builds from the agent result and
the route at the dispatch index. -/
def agentEntry (result : AgentResult) (st : State) : AgentResponse :=
  let intent_data := st.agent_requests.getD (agentIdx st) {}
  { intent := intent_data.intent,
    model := result.model,
    answer := result.response,
    success := result.success,
    tools_used := result.tools_used }

/-- The `_agent_node` of `orchestrator/nodes.py`. The agent call itself is
external, so its result is the oracle value `result`; the node overwrites the
last response entry on a retry (`agent_responses[-1] = entry` when the list is
non-empty) and appends otherwise, resets the reflection on a non-retry run,
logs tokens, and goes to `reflector` when reflection is enabled unless the
dispatched intent is smalltalk and the reply used no tools. -/
def _agent_node (result : AgentResult) (st : State) : State × Node :=
  let is_retry := agentIsRetry st
  let agent_responses := st.agent_responses
  let entry := agentEntry result st
  let agent_responses' :=
    if is_retry && !agent_responses.isEmpty then
      agent_responses.set (agent_responses.length - 1) entry
    else
      agent_responses ++ [entry]
  let tokens : TokenUsage :=
    { model := result.model,
      input_tokens := result.input_tokens,
      output_tokens := result.output_tokens }
  let reflection' := if is_retry then st.reflection else some {}
  let intent_data := st.agent_requests.getD (agentIdx st) {}
  let skip_reflection := intent_data.intent == Intent.SMALLTALK && result.tools_used.isEmpty
  let goto := if st.use_reflection && !skip_reflection then Node.reflector else Node.check_next
  ({ st with
      agent_responses := agent_responses',
      token_log := st.token_log ++ [tokens],
      reflection := reflection' }, goto)

/-- What `reflector.reflect(query, response, intent, success)` returns in its
`info` dictionary. Modelled from the spec: the reflector revision defining
`reflect` is absent from the snapshot; the spec's contract is
`reflect(query, reply, intent, success) -> (action, score, feedback)`. -/
structure ReflectInfo where
  action : Action := Action.ACCEPT
  score : Option Rat := none
  feedback : String := ""

/-- The `_reflector_node` of `orchestrator/nodes.py`. The evaluator LLM call
is external, so its outcome is the oracle value `evalOut`; the node downgrades
a retry to accept when more than one route exists, increments the reflection
count, arms `retry_query` and `retry_history` only when the (possibly
downgraded) action is retry and the new count is still under
`reflector.max_reflections`, stores the new `Reflection`, logs tokens, and
goes to `check_next`. -/
def _reflector_node (evalOut : ReflectInfo × TokenUsage) (max_reflections : Nat)
    (st : State) : State × Node :=
  let agent_responses := st.agent_responses
  let agent_response :=
    ((agent_responses.getLast?).map (fun r => r.answer)).getD ""
  let intents := st.agent_requests
  let info := evalOut.1
  let action :=
    if intents.length > 1 && (info.action == Action.RETRY) then Action.ACCEPT
    else info.action
  let prev_refl := st.getReflection
  let reflection_count := prev_refl.count + 1
  let arm := action == Action.RETRY && reflection_count < max_reflections
  let retry_query :=
    if arm then some ("Previous reply had an error: " ++ info.feedback) else none
  let retry_history :=
    if arm then
      some (st.history ++
        [{ role := Role.USER, content := st.query },
         { role := Role.ASSISTANT, content := agent_response }])
    else none
  ({ st with
      token_log := st.token_log ++ [evalOut.2],
      reflection := some
        { count := reflection_count,
          action := action,
          score := info.score,
          feedback := info.feedback,
          retry_query := retry_query,
          retry_history := retry_history } }, Node.check_next)

/-- Python truthiness of an optional string (`and refl.retry_query`). -/
def pyTruthyStrOpt : Option String → Bool
  | none => false
  | some s => s ≠ ""

/-- The `_check_next_node` of `orchestrator/nodes.py`: loops back to `agent`
while a retry is pending, otherwise re-enters `agent` when fewer responses
than routes exist, else goes to `finalize`. -/
def _check_next_node (st : State) : State × Node :=
  let refl := st.getReflection
  if refl.action == Action.RETRY && pyTruthyStrOpt refl.retry_query then
    (st, Node.agent)
  else
    (st, if st.agent_responses.length < st.agent_requests.length then Node.agent
         else Node.finalize)

/-- The fixed refusal text of `_finalize_node`. -/
def refusalText : String := "I'm sorry, but I can't assist with that request."

/-- The `_finalize_node` of `orchestrator/nodes.py`: when the stored
moderation blocked the query, replaces all agent responses with the single
fixed refusal entry; otherwise passes the accumulated responses through. -/
def _finalize_node (st : State) : State × Node :=
  let agent_responses :=
    match st.moderation with
    | some moderation =>
      if moderation.is_blocked then
        [{ intent := Intent.BLOCKED,
           answer := refusalText,
           success := false : AgentResponse }]
      else st.agent_responses
    | none => st.agent_responses
  ({ st with agent_responses := agent_responses }, Node.terminal)

/-- The external inputs of one session: the moderation gate, the routing
result, and the streams of agent results and evaluator outcomes (indexed by
how many agent and reflector calls have completed), plus the reflector's
iteration budget. -/
structure Oracles where
  moderator : Moderator
  routed : List AgentRequest × TokenUsage
  agentResults : Nat → AgentResult
  reflections : Nat → ReflectInfo × TokenUsage
  max_reflections : Nat

/-- A configuration of the compiled graph: the pending node, the session
state, and how many agent and reflector calls have completed. -/
structure Cfg where
  node : Node
  st : State
  agentCalls : Nat := 0
  reflectorCalls : Nat := 0

/-- One transition of the compiled graph of `build_state_graph`: runs the
pending node on the state and moves to the node it commands (`terminal` is
absorbing). -/
def step (o : Oracles) (c : Cfg) : Cfg :=
  match c.node with
  | Node.moderation =>
    let r := _moderation_node o.moderator c.st
    { c with node := r.2, st := r.1 }
  | Node.router =>
    let r := _router_node o.routed c.st
    { c with node := r.2, st := r.1 }
  | Node.agent =>
    let r := _agent_node (o.agentResults c.agentCalls) c.st
    { c with node := r.2, st := r.1, agentCalls := c.agentCalls + 1 }
  | Node.reflector =>
    let r := _reflector_node (o.reflections c.reflectorCalls) o.max_reflections c.st
    { c with node := r.2, st := r.1, reflectorCalls := c.reflectorCalls + 1 }
  | Node.check_next =>
    let r := _check_next_node c.st
    { c with node := r.2, st := r.1 }
  | Node.finalize =>
    let r := _finalize_node c.st
    { c with node := r.2, st := r.1 }
  | Node.terminal => c

/-- The initial configuration of a session on `query`: the entry point is the
moderation node and the session state holds only the inputs. -/
def initCfg (query : String) (history : List Message) (use_reflection : Bool) : Cfg :=
  { node := Node.moderation,
    st := { query := query, history := history, use_reflection := use_reflection } }

/-- A configuration about to take the retry edge: it sits at `check_next`
with a pending retry, so the next step re-enters `agent` as a retry. -/
def isRetryEntry (c : Cfg) : Bool :=
  c.node == Node.check_next &&
    (c.st.getReflection.action == Action.RETRY) &&
    pyTruthyStrOpt c.st.getReflection.retry_query

/-- How many of the first `n` transitions from `c` take the retry edge back
into `agent`. -/
def retryEntryCount (o : Oracles) (c : Cfg) : Nat → Nat
  | 0 => 0
  | n + 1 => (if isRetryEntry c then 1 else 0) + retryEntryCount o (step o c) n

end Orchestrator

/-- LLM response shape consumed by the router and reflector pipelines
(`response.text`, `response.input_tokens`, `response.output_tokens`). -/
structure LLMResponse where
  text : String
  input_tokens : Int := 0
  output_tokens : Int := 0

namespace Router

open Orchestrator

/-- Result of one routing invocation, from `orchestrator/router.py`
(`class RouterResult`); each intent dict is an `AgentRequest` shape. -/
structure RouterResult where
  intents : List AgentRequest
  input_tokens : Int := 0
  output_tokens : Int := 0

/-- Pydantic validation of one element of the `intents` array against the
dynamically built `Intent(BaseModel)`: an object whose `intent` field is a
string drawn from the registered intent-name enum and whose optional `params`
field is an object (defaulting to empty); anything else fails validation. -/
def validateIntentItem (names : List String) : JValue → Option AgentRequest
  | JValue.obj fields =>
    (match JValue.lookup fields "intent" with
     | some (JValue.str s) =>
       if names.contains s then
         match JValue.lookup fields "params" with
         | none => some { intent := s, params := [] }
         | some (JValue.obj ps) => some { intent := s, params := ps }
         | some _ => none
       else none
     | _ => none)
  | _ => none

/-- Pydantic validation of the model output against the dynamically built
`RoutingResult(BaseModel)`: an object with an `intents` array whose elements
all validate. -/
def validateRouting (names : List String) : JValue → Option (List AgentRequest)
  | JValue.obj fields =>
    (match JValue.lookup fields "intents" with
     | some (JValue.arr items) => items.mapM (validateIntentItem names)
     | _ => none)
  | _ => none

/-- The `Router.execute` method of `orchestrator/router.py`. The prompt
assembly (system prompt plus the last three history turns plus the query) and
the `model.chat` call are external I/O whose outcome is `response`;
`model_validate_json(response.text)` is embedded as JSON decoding (`jsonLoads`,
the external `json` parser) followed by schema validation against the
registered intent names. Any validation failure falls back to the single
default chat route with empty params; the function is total (the `except`
clause catches every exception). -/
def execute (jsonLoads : String → Option JValue) (names : List String)
    (response : LLMResponse) : RouterResult :=
  let intents :=
    match (jsonLoads response.text).bind (validateRouting names) with
    | some parsed => parsed
    | none => [{ intent := "chat", params := [] }]
  { intents := intents,
    input_tokens := response.input_tokens,
    output_tokens := response.output_tokens }

end Router

namespace Reflector

/-- The action vocabulary of `orchestrator/reflector.py` (`VALID_ACTIONS`). -/
def VALID_ACTIONS : List String := ["accept", "retry", "reroute"]

/-- The dictionary `Reflector._parse_reflection` returns: the normalized
action, the converted score, and the raw `feedback` and `suggested_agent`
values copied out of the decoded JSON. -/
structure ParsedReflection where
  action : String
  score : Option Rat := none
  feedback : JValue := JValue.str ""
  suggested_agent : Option JValue := none

/-- An exception escaping `_parse_reflection`: its `except` clause catches
`json.JSONDecodeError`, `KeyError`, `TypeError` and `ValueError`, so an
`AttributeError` (attribute access on a value of the wrong type) propagates. -/
inductive PyError
  | AttributeError
deriving DecidableEq

/-- The deterministic fallback dictionary of the `except` clause:
action `reroute` if the agent already reported failure, else `accept`. -/
def fallbackReflection (agent_success : Bool) : ParsedReflection :=
  { action := if agent_success then "accept" else "reroute",
    score := none,
    feedback := JValue.str "Reflection parse failed",
    suggested_agent := none }

/-- Whether a character list starts with the given pattern. -/
def leadsWith : List Char → List Char → Bool
  | [], _ => true
  | _ :: _, [] => false
  | p :: ps, c :: cs => p == c && leadsWith ps cs

/-- Whether a character list contains three consecutive backtick characters
(code point 96). -/
def hasTripleFence : List Char → Bool
  | [] => false
  | c :: cs =>
    leadsWith [Char.ofNat 96, Char.ofNat 96, Char.ofNat 96] (c :: cs) || hasTripleFence cs

/-- The `"```" in text` membership test before the code-fence extraction. -/
def containsTripleFence (s : String) : Bool :=
  hasTripleFence s.data

/-- The `Reflector._parse_reflection` method of `orchestrator/reflector.py`.
The `re.search` code-fence group extraction is the external `fence` function,
`json.loads` is the external `jsonLoads` (`none` models `JSONDecodeError`),
and the builtin `float(...)` conversion is the external `pyFloat` (`none`
models the `ValueError`/`TypeError` it may raise, which the `except` clause
catches). A decoded value that is not an object, or an `action` value that is
not a string, makes the `data.get(...)`/`.lower()` attribute access raise an
uncaught `AttributeError`. -/
def _parse_reflection (fence : String → Option String)
    (jsonLoads : String → Option JValue) (pyFloat : JValue → Option Rat)
    (text : String) (agent_success : Bool) : Except PyError ParsedReflection :=
  let t0 := pyStrip text
  let t1 :=
    if containsTripleFence t0 then
      match fence t0 with
      | some m => pyStrip m
      | none => t0
    else t0
  match jsonLoads t1 with
  | none => Except.ok (fallbackReflection agent_success)
  | some (JValue.obj fields) =>
    (match (JValue.lookup fields "action").getD (JValue.str "") with
     | JValue.str s =>
       let lowered := pyLower s
       let action := if VALID_ACTIONS.contains lowered then lowered else "accept"
       let feedback := (JValue.lookup fields "feedback").getD (JValue.str "")
       let suggested_agent := JValue.lookup fields "suggested_agent"
       match JValue.lookup fields "score" with
       | none =>
         Except.ok { action := action, score := none,
                     feedback := feedback, suggested_agent := suggested_agent }
       | some sv =>
         match pyFloat sv with
         | some q =>
           Except.ok { action := action, score := some q,
                       feedback := feedback, suggested_agent := suggested_agent }
         | none => Except.ok (fallbackReflection agent_success)
     | _ => Except.error PyError.AttributeError)
  | some _ => Except.error PyError.AttributeError

end Reflector

namespace MCP

/-- The per-call timeout default of `mcp/client.py` (`DEFAULT_TIMEOUT`),
in seconds. -/
def DEFAULT_TIMEOUT : Nat := 15

/-- The `config.get("timeout", DEFAULT_TIMEOUT)` resolution performed for
each configured server in `MCPClient.__init__`. -/
def resolveTimeout (configured : Option Nat) : Nat :=
  configured.getD DEFAULT_TIMEOUT

/-- A discovered external tool, from `mcp/client.py` (`class MCPService`). -/
structure MCPService where
  server : String
  name : String
  description : String := ""
  input_schema : JValue := JValue.obj []
  format_hint : String := ""

/-- The fastmcp `CallToolResult` as consumed by the handler: only its
`structured_content` payload is read. -/
structure CallToolResult where
  structured_content : JValue

/-- An exception escaping `MCPClient.call`: the `ConnectionError` it raises
itself when (re)connection fails, the raw exception of a failed second
`call_tool` attempt (which nothing in `call` catches), or the `KeyError` of a
timeout lookup for an unconfigured server. -/
inductive MCPErr
  | connectionError (msg : String)
  | toolCallError (msg : String)
  | keyError
deriving DecidableEq

/-- The connection-cache state of `MCPClient`: the resolved per-server
timeouts (`_configs`) and the servers holding a cached live client
(`_clients`; the client objects themselves are opaque transport handles). -/
structure ClientSt where
  configs : List (String × Nat)
  clients : List String

/-- Observable effects of one `MCPClient.call`: how many `_connect_one`
attempts were made and the timeout passed to each `asyncio.wait_for`-guarded
`call_tool` attempt. -/
structure CallLog where
  reconnects : Nat := 0
  callTimeouts : List Nat := []
deriving DecidableEq

/-- The `MCPClient.reconnect` method: immediately true when a client is
cached, otherwise one `_connect_one` attempt, whose external outcome is
`connectOk` (on success the server's client is cached). -/
def reconnect (connectOk : Bool) (cs : ClientSt) (server : String) :
    ClientSt × Bool :=
  if cs.clients.contains server then (cs, true)
  else if connectOk then ({ cs with clients := cs.clients ++ [server] }, true)
  else (cs, false)

/-- The `ConnectionError` message raised by `MCPClient.call`. -/
def notAvailableMsg (server : String) : String :=
  "MCP server '" ++ server ++ "' is not available"

/-- The `MCPClient.call` method of `mcp/client.py`. `connectOk k` is the
external outcome of the `k`-th `_connect_one` attempt within this call and
`callRes k` the external outcome of the `k`-th `call_tool` attempt (`.error`
carries the exception text of any failure, timeout included). The method
resolves the per-call timeout once, connects on a cache miss, and on a failed
first attempt evicts the cached client, reconnects exactly once, and retries
exactly once under the same timeout; a second failure propagates uncaught. -/
def call (connectOk : Nat → Bool) (callRes : Nat → Except String CallToolResult)
    (cs : ClientSt) (server : String) :
    Except MCPErr CallToolResult × ClientSt × CallLog :=
  match (cs.configs.find? (fun p => p.1 == server)).map (fun p => p.2) with
  | none => (Except.error MCPErr.keyError, cs, {})
  | some timeout =>
    let entry :=
      if cs.clients.contains server then some (cs, 0)
      else
        let r := reconnect (connectOk 0) cs server
        if r.2 then some (r.1, 1) else none
    match entry with
    | none =>
      (Except.error (MCPErr.connectionError (notAvailableMsg server)), cs,
       { reconnects := 1 })
    | some (cs1, recon1) =>
      match callRes 0 with
      | Except.ok result =>
        (Except.ok result, cs1, { reconnects := recon1, callTimeouts := [timeout] })
      | Except.error _ =>
        let cs2 := { cs1 with clients := cs1.clients.filter (fun c => !(c == server)) }
        let r := reconnect (connectOk recon1) cs2 server
        if r.2 then
          match callRes 1 with
          | Except.ok result =>
            (Except.ok result, r.1,
             { reconnects := recon1 + 1, callTimeouts := [timeout, timeout] })
          | Except.error e2 =>
            (Except.error (MCPErr.toolCallError e2), r.1,
             { reconnects := recon1 + 1, callTimeouts := [timeout, timeout] })
        else
          (Except.error (MCPErr.connectionError (notAvailableMsg server)), r.1,
           { reconnects := recon1 + 1, callTimeouts := [timeout] })

/-- The `MCPHandler.handle` method of `mcp/handler.py`, applied to the
outcome of `MCPClient.call`: a `ConnectionError` becomes an
`{error, unavailable: true}` payload, any other exception becomes a plain
`{error}` payload, and a successful result passes its `structured_content`
through; the method never raises. -/
def handle (service : MCPService)
    (callResult : Except MCPErr CallToolResult) : JValue :=
  match callResult with
  | Except.error (MCPErr.connectionError msg) =>
    JValue.obj [("error", JValue.str msg), ("unavailable", JValue.bool true)]
  | Except.error (MCPErr.toolCallError msg) =>
    JValue.obj
      [("error", JValue.str
        ("The " ++ service.name ++ " tool encountered an error: " ++ msg))]
  | Except.error MCPErr.keyError =>
    JValue.obj
      [("error", JValue.str
        ("The " ++ service.name ++ " tool encountered an error: KeyError"))]
  | Except.ok result => result.structured_content

/-- The `isinstance(data, dict) and data.get(k)` truthiness test. -/
def isDictWithTruthyKey (data : JValue) (k : String) : Bool :=
  match data with
  | JValue.obj fields =>
    (match JValue.lookup fields k with
     | some v => v.pyTruthy
     | none => false)
  | _ => false

/-- The `isinstance(data, dict) and k in data` membership test. -/
def isDictWithKey (data : JValue) (k : String) : Bool :=
  match data with
  | JValue.obj fields => (JValue.lookup fields k).isSome
  | _ => false

/-- Result of one MCP agent execution, from `mcp/agent.py`
(`class MCPResult`). -/
structure MCPResult where
  response : String
  model : String := ""
  success : Bool := true
  input_tokens : Int := 0
  output_tokens : Int := 0
deriving DecidableEq

/-- The fixed user-facing message the MCP agent produces for an unavailable
service. -/
def unavailableMessage (name : String) : String :=
  "The **" ++ name ++ "** service is currently unavailable. You can:\n" ++
  "- Try again in a moment\n" ++
  "- Ask me something else in the meantime"

/-- The `MCPAgent.execute` method of `mcp/agent.py`, applied to the payload
the handler returned. `pyStr` is the builtin `str(...)` rendering, `dumps`
the external `json.dumps`, and `chatOutcome` the outcome of the formatting
LLM call (`none` models the exception its `except` clause catches, after
which the raw data is returned). An `{unavailable: truthy}` payload becomes a
failed result carrying the fixed unavailable message; an `{error}` payload
becomes a failed result carrying the stringified error; otherwise the tool
data is formatted by the model. The method never raises. -/
def execute (pyStr dumps : JValue → String) (chatOutcome : Option LLMResponse)
    (service : MCPService) (model_name : String) (data : JValue) : MCPResult :=
  if isDictWithTruthyKey data "unavailable" then
    { response := unavailableMessage service.name, success := false }
  else if isDictWithKey data "error" then
    { response :=
        pyStr (match data with
               | JValue.obj fields => (JValue.lookup fields "error").getD JValue.null
               | _ => JValue.null),
      success := false }
  else
    let raw_data := match data with | JValue.str s => s | _ => dumps data
    match chatOutcome with
    | some resp =>
      { response := resp.text, model := model_name,
        input_tokens := resp.input_tokens, output_tokens := resp.output_tokens }
    | none => { response := raw_data }

end MCP

namespace Orchestrator

/-- Concrete session inputs exercising the smalltalk retry path: a single
smalltalk route, reflection enabled with the default budget of 2, a first
agent reply that used a tool, retried replies that use none, and an evaluator
that judges the first reply a retry. -/
def loopOracles : Oracles :=
  { moderator := { BLOCK_PATTERNS := [], WARN_PATTERNS := [] },
    routed := ([{ intent := Intent.SMALLTALK, params := [] }], { model := "router" }),
    agentResults := fun k =>
      if k == 0 then { tools_used := ["search"] } else {},
    reflections := fun _ =>
      ({ action := Action.RETRY, feedback := "incomplete" }, { model := "evaluator" }),
    max_reflections := 2 }

/-- The initial configuration of the session driven by `loopOracles`. -/
def loopInit : Cfg := initCfg "hi" [] true

/-- A retrying single-route session holding one stored reply, as left by a
reflector run that armed a retry; exercises the retry branch of the agent
dispatcher. -/
def retryingSt : State :=
  { query := "q",
    agent_requests := [{ intent := "chat" }],
    agent_responses := [{ answer := "old" }],
    reflection := some { count := 1, action := Action.RETRY, retry_query := some "fix" } }

/-- A fresh single-route session with no replies yet; exercises the append
branch of the agent dispatcher. -/
def freshSt : State :=
  { query := "q", agent_requests := [{ intent := "chat" }] }

/-- A fresh session whose single route is smalltalk, with reflection
enabled; exercises the reflection exemption. -/
def smalltalkSt : State :=
  { query := "hi",
    use_reflection := true,
    agent_requests := [{ intent := Intent.SMALLTALK }] }

end Orchestrator

open Orchestrator

/-- C9: for every query string that is empty or consists only of whitespace
(equivalently, whose stripped form is empty), `moderate` returns verdict
block with the "Empty input" reason — for every pattern table, so no pattern
matching is involved in the outcome. -/
theorem empty_query_moderated_block (m : Moderator) (text : String)
    (h : pyStrip text = "") :
    m.moderate text = { verdict := Verdict.block, reason := some "Empty input" } := by
  simp [Moderator.moderate, h]

/-- Witness for C9 at the whitespace-only query, with pattern tables that
match everything: the reason is still "Empty input", not a pattern reason. -/
theorem empty_query_moderated_block_witness :
    pyStrip "   " = "" ∧
    (Moderator.mk [(fun _ => true, "weapons")] [(fun _ => true, "security")]).moderate "   "
      = { verdict := Verdict.block, reason := some "Empty input" } :=
  ⟨rfl, empty_query_moderated_block _ _ rfl⟩

/-- C10: for every non-empty query, the block patterns are checked before the
warn patterns on the lower-cased, stripped input: any block-pattern match
forces verdict block (even when a warn pattern also matches, since no warn
hypothesis is needed), verdict warn implies no block pattern matched, and two
queries with the same lower-cased stripped form moderate identically (matching
is case-insensitive). -/
theorem block_patterns_checked_before_warn (m : Moderator) (text other : String)
    (h : pyStrip text ≠ "") :
    ((∃ p ∈ m.BLOCK_PATTERNS, p.1 (pyLower (pyStrip text)) = true) →
      (m.moderate text).verdict = Verdict.block) ∧
    ((m.moderate text).verdict = Verdict.warn →
      ∀ p ∈ m.BLOCK_PATTERNS, p.1 (pyLower (pyStrip text)) = false) ∧
    (pyStrip other ≠ "" → pyLower (pyStrip other) = pyLower (pyStrip text) →
      m.moderate other = m.moderate text) := by
  refine ⟨?_, ?_, ?_⟩
  · intro hex
    have hsome : (m.BLOCK_PATTERNS.find? (fun p => p.1 (pyLower (pyStrip text)))).isSome = true := by
      rw [List.find?_isSome]
      exact hex
    simp only [Moderator.moderate, if_neg h]
    cases hfind : m.BLOCK_PATTERNS.find? (fun p => p.1 (pyLower (pyStrip text))) with
    | none => rw [hfind] at hsome; simp at hsome
    | some p => simp [hfind]
  · intro hw
    have hnone : m.BLOCK_PATTERNS.find? (fun p => p.1 (pyLower (pyStrip text))) = none := by
      cases hfind : m.BLOCK_PATTERNS.find? (fun p => p.1 (pyLower (pyStrip text))) with
      | none => rfl
      | some p =>
        exfalso
        simp only [Moderator.moderate, if_neg h, hfind] at hw
        exact absurd hw (by simp)
    intro p hp
    have := List.find?_eq_none.mp hnone p hp
    simpa using this
  · intro h2 heq
    simp only [Moderator.moderate, if_neg h2, if_neg h, heq]

/-- Witness for C10: a moderator whose block table flags "kill" (reason
violence) and whose warn table flags the same word (reason security);
"KILL " is blocked, and "kill" moderates identically to "KILL ". -/
theorem block_patterns_checked_before_warn_witness :
    (((Moderator.mk [(fun s => s == "kill", "violence")] [(fun s => s == "kill", "security")]).moderate
        "KILL ").verdict = Verdict.block) ∧
    ((Moderator.mk [(fun s => s == "kill", "violence")] [(fun s => s == "kill", "security")]).moderate
        "kill" =
      (Moderator.mk [(fun s => s == "kill", "violence")] [(fun s => s == "kill", "security")]).moderate
        "KILL ") := by
  have h := block_patterns_checked_before_warn
    (Moderator.mk [(fun s => s == "kill", "violence")] [(fun s => s == "kill", "security")])
    "KILL " "kill" (by decide)
  exact ⟨h.1 ⟨_, List.mem_singleton.mpr rfl, by decide⟩, h.2.2 (by decide) (by decide)⟩

/-- C1: for every session state whose query moderates to block — whatever
routes, agent replies or reflection are already present — the moderation node
commands a jump straight to `finalize` (never to `router`), and finalizing
the updated state emits exactly one result with intent blocked, success
false and the fixed refusal text, then terminates. -/
theorem moderation_block_short_circuits_finalize (moderator : Moderator) (st : State)
    (h : (moderator.moderate st.query).is_blocked = true) :
    ((_moderation_node moderator st).2 = Node.finalize) ∧
    ((_finalize_node (_moderation_node moderator st).1).1.agent_responses =
      [{ intent := Intent.BLOCKED, answer := refusalText, success := false }]) ∧
    ((_finalize_node (_moderation_node moderator st).1).2 = Node.terminal) := by
  refine ⟨?_, ?_, ?_⟩ <;> simp [_moderation_node, _finalize_node, h]

/-- Witness for C1: an empty query (blocked by the gate) in a session that
already holds a route and an agent reply; the finalized output is the single
refusal result anyway. -/
theorem moderation_block_short_circuits_finalize_witness :
    ((Moderator.mk [] []).moderate
        (State.mk "" [] false none [{ intent := "chat" }] [{ answer := "stale" }] none []).query).is_blocked
      = true ∧
    ((_finalize_node (_moderation_node (Moderator.mk [] [])
        (State.mk "" [] false none [{ intent := "chat" }] [{ answer := "stale" }] none [])).1).1.agent_responses =
      [{ intent := Intent.BLOCKED, answer := refusalText, success := false }]) :=
  ⟨rfl,
   (moderation_block_short_circuits_finalize (Moderator.mk [] [])
     (State.mk "" [] false none [{ intent := "chat" }] [{ answer := "stale" }] none []) rfl).2.1⟩

/-- C3: for every session with more than one route, the reflection stored by
the reflector node never carries action retry: a retry verdict from the
evaluator is downgraded to accept inside the node, before `check_next` can
observe it. -/
theorem multi_route_retry_dampened_to_accept (evalOut : ReflectInfo × TokenUsage)
    (max_reflections : Nat) (st : State)
    (h : 1 < st.agent_requests.length) :
    ((_reflector_node evalOut max_reflections st).1.getReflection).action ≠ Action.RETRY := by
  cases hact : evalOut.1.action <;>
    simp [_reflector_node, State.getReflection, hact, h]

/-- Witness for C3: a two-route session whose evaluator answers retry; the
stored reflection action is not retry. -/
theorem multi_route_retry_dampened_to_accept_witness :
    (1 < (State.mk "q" [] true none [{ intent := "rag" }, { intent := "chat" }] [] none []).agent_requests.length) ∧
    ((_reflector_node ({ action := Action.RETRY, feedback := "f" }, { model := "m" }) 2
        (State.mk "q" [] true none [{ intent := "rag" }, { intent := "chat" }] [] none [])).1.getReflection).action
      ≠ Action.RETRY :=
  ⟨by decide,
   multi_route_retry_dampened_to_accept ({ action := Action.RETRY, feedback := "f" }, { model := "m" }) 2
     (State.mk "q" [] true none [{ intent := "rag" }, { intent := "chat" }] [] none []) (by decide)⟩

/-- C7: the agent dispatcher's frame property. On a retry (with at least one
response present, which any retry implies since a retry follows a reflection
of an appended response) the node overwrites exactly the last response entry:
the list keeps its length and every earlier entry; on a non-retry run it
appends a fresh entry; and in both cases the route list is untouched, so a
retry never grows either list. -/
theorem agent_retry_replaces_last_response_only (result : AgentResult) (st : State) :
    (agentIsRetry st = true → st.agent_responses ≠ [] →
      ((_agent_node result st).1.agent_responses =
        st.agent_responses.set (st.agent_responses.length - 1) (agentEntry result st)) ∧
      ((_agent_node result st).1.agent_responses.length = st.agent_responses.length) ∧
      (∀ i, i + 1 < st.agent_responses.length →
        ((_agent_node result st).1.agent_responses)[i]? = (st.agent_responses)[i]?)) ∧
    (agentIsRetry st = false →
      (_agent_node result st).1.agent_responses =
        st.agent_responses ++ [agentEntry result st]) ∧
    ((_agent_node result st).1.agent_requests = st.agent_requests) := by
  refine ⟨?_, ?_, ?_⟩
  · intro hr hne
    refine ⟨?_, ?_, ?_⟩
    · simp [_agent_node, hr, hne]
    · simp [_agent_node, hr, hne]
    · intro i hi
      have hset : (_agent_node result st).1.agent_responses =
          st.agent_responses.set (st.agent_responses.length - 1) (agentEntry result st) := by
        simp [_agent_node, hr, hne]
      rw [hset]
      exact List.getElem?_set_ne (by omega)
  · intro hr
    simp [_agent_node, hr]
  · simp [_agent_node]

/-- Witness for C7: on the retrying session the new entry overwrites slot 0
of the one-element response list; on the fresh session it is appended. -/
theorem agent_retry_replaces_last_response_only_witness :
    (agentIsRetry retryingSt = true) ∧
    ((_agent_node { response := "new" } retryingSt).1.agent_responses =
      retryingSt.agent_responses.set 0 (agentEntry { response := "new" } retryingSt)) ∧
    ((_agent_node { response := "new" } freshSt).1.agent_responses =
      freshSt.agent_responses ++ [agentEntry { response := "new" } freshSt]) := by
  refine ⟨rfl, ?_, ?_⟩
  · exact ((agent_retry_replaces_last_response_only { response := "new" } retryingSt).1
      rfl (by simp [retryingSt])).1
  · exact (agent_retry_replaces_last_response_only { response := "new" } freshSt).2.1 rfl

/-- C8: a dispatched route whose intent is smalltalk and whose reply used no
tools goes straight to `check_next` (skipping the reflector) even when
reflection is enabled; any other dispatched route goes to the reflector
whenever reflection is enabled. -/
theorem smalltalk_no_tools_skips_reflector (result : AgentResult) (st : State) :
    ((st.agent_requests.getD (agentIdx st) {}).intent = Intent.SMALLTALK →
      result.tools_used = [] →
      (_agent_node result st).2 = Node.check_next) ∧
    (st.use_reflection = true →
      ((st.agent_requests.getD (agentIdx st) {}).intent ≠ Intent.SMALLTALK ∨
        result.tools_used ≠ []) →
      (_agent_node result st).2 = Node.reflector) := by
  constructor
  · intro hintent htools
    simp only [List.getD, List.get?_eq_getElem?] at hintent
    simp [_agent_node, hintent, htools]
  · intro huse hother
    rcases hother with hne | hne
    · simp only [List.getD, List.get?_eq_getElem?] at hne
      simp [_agent_node, huse, hne]
    · simp [_agent_node, huse, hne]

/-- Witness for C8: on the reflection-enabled smalltalk session, a tool-free
reply goes to `check_next`, while a reply that used a tool goes to the
reflector. -/
theorem smalltalk_no_tools_skips_reflector_witness :
    ((_agent_node { response := "hey" } smalltalkSt).2 = Node.check_next) ∧
    ((_agent_node { response := "hey", tools_used := ["search"] } smalltalkSt).2 = Node.reflector) :=
  ⟨(smalltalk_no_tools_skips_reflector { response := "hey" } smalltalkSt).1 rfl rfl,
   (smalltalk_no_tools_skips_reflector { response := "hey", tools_used := ["search"] } smalltalkSt).2
     rfl (Or.inr (by simp))⟩

/-- Counterexample for C4: on an undecodable evaluator output ("not json",
with the JSON decoder failing) and an agent that reported failure, the
fallback action is "reroute", not the "retry" the claim states. -/
theorem parse_fallback_is_reroute_not_retry :
    ((Reflector._parse_reflection (fun _ => none) (fun _ => none) (fun _ => none)
        "not json" false).map (fun r => r.action) = Except.ok "reroute") ∧
    ¬ ((Reflector._parse_reflection (fun _ => none) (fun _ => none) (fun _ => none)
        "not json" false).map (fun r => r.action) = Except.ok "retry") := by
  constructor
  · rfl
  · intro hcontra
    rw [show (Reflector._parse_reflection (fun _ => none) (fun _ => none) (fun _ => none)
        "not json" false).map (fun r => r.action) = Except.ok "reroute" from rfl] at hcontra
    simp at hcontra

/-- C4 as amended: `_parse_reflection` returns the deterministic fallback
without raising — action "reroute" if the agent reported failure, else
"accept", with no score and the fixed feedback text — on both caught failure
paths: whenever JSON decoding of the (stripped, fence-extracted) evaluator
output fails, and whenever the output decodes to an object whose `action`
value is a string but whose `score` field fails float conversion (the caught
`ValueError`/`TypeError` of the builtin `float`). -/
theorem parse_failure_fallback_deterministic (fence : String → Option String)
    (jsonLoads : String → Option JValue) (pyFloat : JValue → Option Rat)
    (text : String) (agent_success : Bool) :
    (jsonLoads
        (if Reflector.containsTripleFence (pyStrip text) then
          match fence (pyStrip text) with
          | some m => pyStrip m
          | none => pyStrip text
        else pyStrip text) = none →
      Reflector._parse_reflection fence jsonLoads pyFloat text agent_success =
        Except.ok
          { action := if agent_success then "accept" else "reroute",
            score := none,
            feedback := JValue.str "Reflection parse failed",
            suggested_agent := none }) ∧
    (∀ (fields : List (String × JValue)) (s : String) (sv : JValue),
      jsonLoads
        (if Reflector.containsTripleFence (pyStrip text) then
          match fence (pyStrip text) with
          | some m => pyStrip m
          | none => pyStrip text
        else pyStrip text) = some (JValue.obj fields) →
      (JValue.lookup fields "action").getD (JValue.str "") = JValue.str s →
      JValue.lookup fields "score" = some sv →
      pyFloat sv = none →
      Reflector._parse_reflection fence jsonLoads pyFloat text agent_success =
        Except.ok
          { action := if agent_success then "accept" else "reroute",
            score := none,
            feedback := JValue.str "Reflection parse failed",
            suggested_agent := none }) := by
  constructor
  · intro h
    simp only [Reflector._parse_reflection, h]
    rfl
  · intro fields s sv h1 h2 h3 h4
    simp only [Reflector._parse_reflection, h1, h2, h3, h4]
    rfl

/-- Witness for C4's amended theorem, exercising both fallback paths: a
decoder failing on the raw text "oops" with a successful agent yields the
accept-side fallback, and an output decoding to an object whose score value
fails float conversion, with a failed agent, yields the reroute-side
fallback. -/
theorem parse_failure_fallback_deterministic_witness :
    (Reflector._parse_reflection (fun _ => none) (fun _ => none) (fun _ => none) "oops" true =
      Except.ok
        { action := if true then "accept" else "reroute",
          score := none,
          feedback := JValue.str "Reflection parse failed",
          suggested_agent := none }) ∧
    (Reflector._parse_reflection (fun _ => none)
        (fun _ => some (JValue.obj [("action", JValue.str "retry"), ("score", JValue.str "high")]))
        (fun _ => none) "x" false =
      Except.ok
        { action := if false then "accept" else "reroute",
          score := none,
          feedback := JValue.str "Reflection parse failed",
          suggested_agent := none }) :=
  ⟨(parse_failure_fallback_deterministic (fun _ => none) (fun _ => none) (fun _ => none)
      "oops" true).1 rfl,
   (parse_failure_fallback_deterministic (fun _ => none)
      (fun _ => some (JValue.obj [("action", JValue.str "retry"), ("score", JValue.str "high")]))
      (fun _ => none) "x" false).2
      [("action", JValue.str "retry"), ("score", JValue.str "high")] "retry"
      (JValue.str "high") rfl rfl rfl rfl⟩

/-- C5's main part: whenever schema decoding/validation of the routing model
output fails, `Router.execute` returns exactly the single default chat route
with empty params (and, being total, never raises). -/
theorem decode_failure_single_default_chat_route (jsonLoads : String → Option JValue)
    (names : List String) (response : LLMResponse)
    (h : (jsonLoads response.text).bind (Router.validateRouting names) = none) :
    (Router.execute jsonLoads names response).intents = [{ intent := "chat", params := [] }] := by
  simp [Router.execute, h]

/-- Witness for C5's main theorem: a decoder failing on the concrete output
"garbage" yields the single default chat route. -/
theorem decode_failure_single_default_chat_route_witness :
    (((fun _ => none : String → Option JValue) "garbage").bind (Router.validateRouting ["chat"]) = none) ∧
    (Router.execute (fun _ => none) ["chat"] { text := "garbage" }).intents =
      [{ intent := "chat", params := [] }] :=
  ⟨rfl, decode_failure_single_default_chat_route (fun _ => none) ["chat"] { text := "garbage" } rfl⟩

/-- Counterexample for C5's "never returns an empty route list" conjunct: the
model output decoding to the JSON object with an empty intents array (the
text "\x7b\"intents\": []\x7d", which is valid JSON and validates against the
routing schema) makes `Router.execute` return zero routes — the fallback only
guards the decode-failure path. -/
theorem validated_empty_intents_zero_routes :
    (Router.validateRouting ["chat"] (JValue.obj [("intents", JValue.arr [])]) = some []) ∧
    (Router.execute (fun _ => some (JValue.obj [("intents", JValue.arr [])])) ["chat"]
        { text := "\x7b\"intents\": []\x7d" }).intents = [] := by
  exact ⟨rfl, rfl⟩

/-- Helper: a key filtered out of a string list is no longer contained. -/
theorem contains_filter_out_eq_false (l : List String) (s : String) :
    (l.filter (fun c => !(c == s))).contains s = false := by
  rw [Bool.eq_false_iff]
  intro hmem
  have hmem2 : s ∈ l.filter (fun c => !(c == s)) := by
    simpa [List.contains] using List.elem_iff.mp hmem
  have h2 := List.mem_filter.mp hmem2
  simp at h2

/-- C6: when the first tool-call attempt on a cached connection fails,
`MCPClient.call` evicts the cached client and makes exactly one reconnect
attempt; both call attempts run under the same configured per-call timeout
(whose default is 15 seconds). If the reconnect fails the call surfaces a
`ConnectionError`, which the handler converts into an
`{error, unavailable: true}` payload and the MCP agent converts into a failed
result carrying the fixed "service is currently unavailable" message — all
three stages are total, so no exception reaches the session. -/
theorem tool_call_failure_reconnect_once_and_surface
    (connectOk : Nat → Bool) (callRes : Nat → Except String MCP.CallToolResult)
    (cs : MCP.ClientSt) (server : String) (timeout : Nat) (e : String)
    (service : MCP.MCPService)
    (hcfg : (cs.configs.find? (fun p => p.1 == server)).map (fun p => p.2) = some timeout)
    (hcached : cs.clients.contains server = true)
    (hfail : callRes 0 = Except.error e) :
    (connectOk 0 = false →
      (MCP.call connectOk callRes cs server =
        (Except.error (MCP.MCPErr.connectionError (MCP.notAvailableMsg server)),
         { cs with clients := cs.clients.filter (fun c => !(c == server)) },
         { reconnects := 1, callTimeouts := [timeout] })) ∧
      (MCP.handle service (MCP.call connectOk callRes cs server).1 =
        JValue.obj [("error", JValue.str (MCP.notAvailableMsg server)),
                    ("unavailable", JValue.bool true)]) ∧
      (∀ (pyStr dumps : JValue → String) (chatOutcome : Option LLMResponse)
          (model_name : String),
        MCP.execute pyStr dumps chatOutcome service model_name
          (MCP.handle service (MCP.call connectOk callRes cs server).1) =
        { response := MCP.unavailableMessage service.name, success := false })) ∧
    (connectOk 0 = true →
      (MCP.call connectOk callRes cs server).2.2 =
        { reconnects := 1, callTimeouts := [timeout, timeout] }) ∧
    (MCP.resolveTimeout none = 15) := by
  have hfilter := contains_filter_out_eq_false cs.clients server
  refine ⟨?_, ?_, rfl⟩
  · intro hc0
    have hcall : MCP.call connectOk callRes cs server =
        (Except.error (MCP.MCPErr.connectionError (MCP.notAvailableMsg server)),
         { cs with clients := cs.clients.filter (fun c => !(c == server)) },
         { reconnects := 1, callTimeouts := [timeout] }) := by
      simp only [MCP.call, hcfg, hcached, hfail, MCP.reconnect, hfilter, hc0]
      simp [hc0]
    refine ⟨hcall, ?_, ?_⟩
    · rw [hcall]
      rfl
    · intro pyStr dumps chatOutcome model_name
      rw [hcall]
      rfl
  · intro hc0
    cases hc1 : callRes 1 with
    | ok r =>
      simp only [MCP.call, hcfg, hcached, hfail, MCP.reconnect, hfilter, hc0, hc1]
      simp [hc0]
    | error e2 =>
      simp only [MCP.call, hcfg, hcached, hfail, MCP.reconnect, hfilter, hc0, hc1]
      simp [hc0]

/-- Witness for C6: a cached weather server with the default 15-second
timeout whose call attempt fails and whose reconnect fails; the call surfaces
the connection error with one reconnect attempt and an evicted cache, and the
handler plus agent turn it into the fixed unavailable reply. -/
theorem tool_call_failure_reconnect_once_and_surface_witness :
    ((({ configs := [("weather", 15)], clients := ["weather"] } : MCP.ClientSt).configs.find?
        (fun p => p.1 == "weather")).map (fun p => p.2) = some 15) ∧
    (MCP.call (fun _ => false) (fun _ => Except.error "timed out")
        { configs := [("weather", 15)], clients := ["weather"] } "weather" =
      (Except.error (MCP.MCPErr.connectionError (MCP.notAvailableMsg "weather")),
       { configs := [("weather", 15)], clients := [] },
       { reconnects := 1, callTimeouts := [15] })) ∧
    (MCP.execute (fun _ => "") (fun _ => "") none
        { server := "weather", name := "get_weather" } ""
        (MCP.handle { server := "weather", name := "get_weather" }
          (MCP.call (fun _ => false) (fun _ => Except.error "timed out")
            { configs := [("weather", 15)], clients := ["weather"] } "weather").1) =
      { response := MCP.unavailableMessage "get_weather", success := false }) := by
  have h := tool_call_failure_reconnect_once_and_surface (fun _ => false)
    (fun _ => Except.error "timed out")
    { configs := [("weather", 15)], clients := ["weather"] }
    "weather" 15 "timed out" { server := "weather", name := "get_weather" } rfl rfl rfl
  have h1 := h.1 rfl
  exact ⟨rfl, by simpa using h1.1, h1.2.2 (fun _ => "") (fun _ => "") none ""⟩

/-- C2 fails on the code: in the concrete single-route smalltalk session of
`loopOracles` (budget `max_reflections = 2`), the route re-enters `agent` via
the retry edge 4 times within the first 12 transitions and 4 more within the
next 8, and after 20 transitions another retry entry is still pending: the
retried smalltalk reply uses no tools, so the dispatcher skips the reflector,
the reflection count never increments, the armed retry never clears, and
`check_next` keeps re-entering `agent` (with responses = routes = 1)
unboundedly instead of honoring the budget. -/
theorem smalltalk_retry_loop_unbounded :
    loopOracles.max_reflections < retryEntryCount loopOracles loopInit 12 ∧
    retryEntryCount loopOracles loopInit 20 = retryEntryCount loopOracles loopInit 12 + 4 ∧
    isRetryEntry ((step loopOracles)^[20] loopInit) = true := by
  refine ⟨by decide, by decide, by decide⟩
